import Mathlib

/-!
Shallow embedding of the clip-orchestration backend (`twitch-api.js`,
`youtube-api.js`, `server.js`) and proofs about its behaviour.

External I/O (axios requests, tmi.js chat commands, googleapis calls) is
modelled by oracle environments (`TwitchEnv`, `YTEnv`): each field gives the
outcome of one kind of external call, either a value or a thrown error.
Mutable instance fields (`this.cache`, `this.lastRequestTime`,
`this.isConnected`, ...) are threaded explicitly as state records.  Wall-clock
time (`Date.now()` / `sleep`) is idealised as a `Nat` clock in the state that
`sleep` advances exactly.  A JavaScript function that can throw returns
`Except JsError α`; one that catches everything always returns `.ok`.  Every
external request performed is recorded in a call trace, so "no external call
is made" is a statement about that trace.
-/

/-- Error value thrown by an external call: the message plus the numeric
status attached to the transport error (`error.response.status` for axios,
`error.code` for googleapis), when one is present. -/
structure JsError where
  msg : String
  status : Option Nat := none
deriving DecidableEq

/-- Value stored in the NodeCache: the code stores strings (user ids, chat
ids) and booleans (live flags).  Key prefixes (`user_id_`, `live_status_`,
`live_chat_id_`) keep the two classes on disjoint keys. -/
inductive CacheVal
  | str (s : String)
  | bool (b : Bool)
deriving DecidableEq

/-- Cache lookup (`cache.get(key)`). -/
def cacheGet (c : List (String × CacheVal)) (k : String) : Option CacheVal :=
  match c.find? (fun p => p.1 == k) with
  | some p => some p.2
  | none => none

/-- Cache lookup of a string entry; keys with a string-valued prefix never
hold booleans. -/
def cacheGetStr (c : List (String × CacheVal)) (k : String) : Option String :=
  match cacheGet c k with
  | some (.str s) => some s
  | _ => none

/-- Cache lookup of a boolean entry; keys with the `live_status_` prefix
never hold strings. -/
def cacheGetBool (c : List (String × CacheVal)) (k : String) : Option Bool :=
  match cacheGet c k with
  | some (.bool b) => some b
  | _ => none

/-- Cache store (`cache.set(key, value, ttl)`); overwrites any previous
entry for the key. -/
def cacheSet (c : List (String × CacheVal)) (k : String) (v : CacheVal) :
    List (String × CacheVal) :=
  (k, v) :: c.filter (fun p => p.1 != k)

/-- Embedding of JavaScript `toLowerCase` on the basic latin range, the only
range the repository's channel names use: each character is lowered
individually. -/
def jsToLower (s : String) : String :=
  ⟨s.data.map Char.toLower⟩

/-- Spec-level predicate: the string `s` ends with `post`. -/
def strEndsWith (s post : String) : Bool :=
  post.data.isSuffixOf s.data

/-- Mutable fields of the `TwitchAPI` instance that the embedded operations
read or write. -/
structure TwitchState where
  cache : List (String × CacheVal)
  clock : Nat
  lastRequestTime : Nat
  chatClientInit : Bool
  isConnected : Bool
  chatChannels : List String
deriving DecidableEq

/-- One external request, as recorded in the call trace. -/
inductive ExtCall
  | usersReq (login : String)
  | streamsReq (userId : String)
  | clipsPost (broadcasterId : String)
  | clipsGetReq (clipId : String)
  | chatConnectReq
  | chatJoinReq (channel : String)
  | chatSayReq (channel : String) (text : String)
  | ytSearchReq
  | ytVideosReq (videoId : String)
  | ytInsertReq (liveChatId : String) (text : String)
deriving DecidableEq

/-- Oracle for the Twitch-side external calls.  `usersLookup` returns the
list of user ids in `response.data.data` for a login, `streamsLookup` the
number of live streams for a user id, `clipsCreate` the `(id, edit_url)`
records returned by the clips endpoint, `clipsGet` the number of clips found
when verifying, and the chat fields the outcomes of tmi.js commands. -/
structure TwitchEnv where
  usersLookup : String → Except JsError (List String)
  streamsLookup : String → Except JsError Nat
  clipsCreate : String → Except JsError (List (String × String))
  clipsGet : String → Except JsError Nat
  chatConnect : Except JsError Unit
  chatJoin : String → Except JsError Unit
  chatSay : String → String → Except JsError Unit

/-- Result of running one embedded operation: the returned value or thrown
error, the updated instance state, and the external calls performed. -/
structure Out (σ : Type) (α : Type) where
  val : Except JsError α
  st : σ
  calls : List ExtCall

/-- Grant time of one `rateLimit()` call that starts with the given clock
and last-grant timestamp: if the minimum interval has not yet elapsed the
caller sleeps until `last + m`, and the grant time is read from the clock
after the sleep. -/
def rateLimitGrant (clock last m : Nat) : Nat :=
  if m ≤ clock - last then clock else last + m

/-- Embedding of `TwitchAPI.rateLimit` (100 ms minimum interval): advances
the clock over the sleep and records the grant in `lastRequestTime`. -/
def rateLimit (st : TwitchState) : TwitchState :=
  let g := rateLimitGrant st.clock st.lastRequestTime 100
  { st with clock := g, lastRequestTime := g }

/-- Cache key used by `getUserId`. -/
def userIdKey (username : String) : String :=
  "user_id_" ++ jsToLower username

/-- Cache key used by `isChannelLive`. -/
def liveKey (username : String) : String :=
  "live_status_" ++ jsToLower username

/-- Cache-miss path of `getUserId`: rate-limited lookup of the login; a 401
is rethrown as an invalid-token error, any other failure (including an empty
response, whose `User ... not found` throw is caught by the same catch) is
rethrown with the `Failed to get user ID` message. -/
def getUserIdFetch (st : TwitchState) (env : TwitchEnv) (username : String) :
    Out TwitchState String :=
  let st1 := rateLimit st
  let login := jsToLower username
  match env.usersLookup login with
  | .error e =>
      if e.status = some 401 then
        ⟨.error ⟨"Invalid or expired Twitch access token", none⟩, st1, [.usersReq login]⟩
      else
        ⟨.error ⟨"Failed to get user ID for " ++ username ++ ": " ++ e.msg, none⟩,
          st1, [.usersReq login]⟩
  | .ok [] =>
      ⟨.error ⟨"Failed to get user ID for " ++ username ++ ": User " ++ username
          ++ " not found", none⟩, st1, [.usersReq login]⟩
  | .ok (uid :: _) =>
      ⟨.ok uid,
        { st1 with cache := cacheSet st1.cache (userIdKey username) (.str uid) },
        [.usersReq login]⟩

/-- Embedding of `TwitchAPI.getUserId`: cached lookup of a user id by login
name.  The cached value is consulted with a truthiness test (`if (userId)`),
so an empty string behaves like a miss.  On any external failure the error
is rethrown to the caller. -/
def getUserId (st : TwitchState) (env : TwitchEnv) (username : String) :
    Out TwitchState String :=
  match cacheGetStr st.cache (userIdKey username) with
  | some uid =>
      if uid = "" then getUserIdFetch st env username else ⟨.ok uid, st, []⟩
  | none => getUserIdFetch st env username

/-- Embedding of `TwitchAPI.isChannelLive`: cached live flag (the cached
value is consulted with an `!== undefined` test, so a cached `false` is
returned); on a miss it resolves the user id and queries the streams
endpoint, caching the flag.  Any error from either call is caught and `false`
is returned. -/
def isChannelLive (st : TwitchState) (env : TwitchEnv) (username : String) :
    Out TwitchState Bool :=
  match cacheGetBool st.cache (liveKey username) with
  | some b => ⟨.ok b, st, []⟩
  | none =>
      match getUserId st env username with
      | ⟨.error _, st1, cs⟩ => ⟨.ok false, st1, cs⟩
      | ⟨.ok uid, st1, cs⟩ =>
          let st2 := rateLimit st1
          match env.streamsLookup uid with
          | .error _ => ⟨.ok false, st2, cs ++ [.streamsReq uid]⟩
          | .ok n =>
              let live := decide (0 < n)
              ⟨.ok live,
                { st2 with cache := cacheSet st2.cache (liveKey username) (.bool live) },
                cs ++ [.streamsReq uid]⟩

deriving instance DecidableEq for Except

/-- Result object returned by `createClip`; failure paths carry only the
`success` flag and the error message, the remaining fields keep their
defaults. -/
structure ClipResult where
  success : Bool
  error : String := ""
  clipId : String := ""
  clipUrl : String := ""
  editUrl : String := ""
  channelName : String := ""
  duration : Int := 0
deriving DecidableEq

/-- Failure return of `createClip` (`{success: false, error}`). -/
def clipFail (st : TwitchState) (calls : List ExtCall) (msg : String) :
    Out TwitchState ClipResult :=
  ⟨.ok { success := false, error := msg }, st, calls⟩

/-- Catch clause of `createClip`: a 401/403/503 on the thrown error's
response maps to a fixed message, anything else reports the error's own
message. -/
def createClipCatch (st : TwitchState) (calls : List ExtCall) (e : JsError) :
    Out TwitchState ClipResult :=
  if e.status = some 401 then
    clipFail st calls "Invalid or expired Twitch access token"
  else if e.status = some 403 then
    clipFail st calls
      "Insufficient permissions to create clips. Ensure your token has the clips:edit scope."
  else if e.status = some 503 then
    clipFail st calls "Twitch API is currently unavailable. Please try again later."
  else
    clipFail st calls e.msg

/-- Embedding of `TwitchAPI.verifyClipExists`: rate-limited lookup of the
clip id; on any error the clip is assumed to exist. -/
def verifyClipExists (st : TwitchState) (env : TwitchEnv) (clipId : String) :
    Out TwitchState Bool :=
  let st1 := rateLimit st
  match env.clipsGet clipId with
  | .error _ => ⟨.ok true, st1, [.clipsGetReq clipId]⟩
  | .ok n => ⟨.ok (decide (0 < n)), st1, [.clipsGetReq clipId]⟩

/-- Embedding of `TwitchAPI.createClip`.  In source order: reject a falsy
channel name, reject a duration outside 5..60, return a not-live failure if
`isChannelLive` is false, resolve the user id, post to the clips endpoint,
sleep 3000 ms for processing, build the public URL from the fixed
`clips.twitch.tv` template, then run the best-effort existence check whose
outcome is only logged.  All throws are normalised by the catch clause, so
the function never propagates an error. -/
def createClip (st : TwitchState) (env : TwitchEnv) (channelName : String)
    (duration : Int) (_title : Option String) : Out TwitchState ClipResult :=
  if channelName = "" then
    clipFail st [] "Invalid channel name provided"
  else if duration < 5 ∨ 60 < duration then
    clipFail st [] "Clip duration must be between 5 and 60 seconds"
  else
    match isChannelLive st env channelName with
    | ⟨.error e, st1, cs⟩ => createClipCatch st1 cs e
    | ⟨.ok false, st1, cs⟩ =>
        clipFail st1 cs ("Channel " ++ channelName ++ " is not currently live")
    | ⟨.ok true, st1, cs⟩ =>
        match getUserId st1 env channelName with
        | ⟨.error e, st2, cs2⟩ => createClipCatch st2 (cs ++ cs2) e
        | ⟨.ok uid, st2, cs2⟩ =>
            let st3 := rateLimit st2
            match env.clipsCreate uid with
            | .error e => createClipCatch st3 (cs ++ cs2 ++ [.clipsPost uid]) e
            | .ok [] =>
                createClipCatch st3 (cs ++ cs2 ++ [.clipsPost uid])
                  ⟨"Cannot read properties of undefined (reading 'id')", none⟩
            | .ok ((clipId, editUrl) :: _) =>
                let st4 := { st3 with clock := st3.clock + 3000 }
                let clipUrl := "https://clips.twitch.tv/" ++ clipId
                let vr := verifyClipExists st4 env clipId
                ⟨.ok { success := true, clipId := clipId, clipUrl := clipUrl,
                       editUrl := editUrl, channelName := channelName,
                       duration := duration },
                  vr.st, cs ++ cs2 ++ [.clipsPost uid] ++ vr.calls⟩

/-- Result object of `joinChannel` / `leaveChannel`. -/
structure SimpleResult where
  success : Bool
  message : String := ""
  error : String := ""
deriving DecidableEq

/-- Embedding of `TwitchAPI.joinChannel`: joins `#<lowercased name>`; a
thrown tmi.js error is caught and returned as a failure result.  On success
the client's channel list gains the target channel. -/
def joinChannel (st : TwitchState) (env : TwitchEnv) (channelName : String) :
    Out TwitchState SimpleResult :=
  if st.chatClientInit = false then
    ⟨.ok { success := false, error := "Chat client not initialized" }, st, []⟩
  else
    let target := "#" ++ jsToLower channelName
    match env.chatJoin target with
    | .error e => ⟨.ok { success := false, error := e.msg }, st, [.chatJoinReq target]⟩
    | .ok _ =>
        ⟨.ok { success := true, message := "Joined " ++ channelName ++ " successfully" },
          { st with chatChannels := st.chatChannels ++ [target] }, [.chatJoinReq target]⟩

/-- Result object of `postToChat`. -/
structure ChatPostResult where
  success : Bool
  error : String := ""
  message : String := ""
  channel : String := ""
  text : String := ""
deriving DecidableEq

/-- Final send step of `postToChat`: `chatClient.say` on the target channel;
a thrown error is caught and its message (or the generic fallback) is
returned as the failure. -/
def postToChatSay (st : TwitchState) (env : TwitchEnv)
    (channelName message target : String) (pre : List ExtCall) :
    Out TwitchState ChatPostResult :=
  match env.chatSay target message with
  | .error e =>
      ⟨.ok { success := false,
             error := if e.msg = "" then "Failed to post to Twitch chat" else e.msg },
        st, pre ++ [.chatSayReq target message]⟩
  | .ok _ =>
      ⟨.ok { success := true, message := "Posted to Twitch chat successfully",
             channel := channelName, text := message },
        st, pre ++ [.chatSayReq target message]⟩

/-- Joined-channel check of `postToChat`: if `#<lowercased name>` is not in
the client's channel list, `joinChannel` runs first (its failure result is
not inspected) followed by a 500 ms wait, then the message is sent. -/
def postToChatConnected (st : TwitchState) (env : TwitchEnv)
    (channelName message : String) : Out TwitchState ChatPostResult :=
  let target := "#" ++ jsToLower channelName
  if st.chatChannels.contains target then
    postToChatSay st env channelName message target []
  else
    match joinChannel st env channelName with
    | ⟨_, st1, cs⟩ =>
        let st2 := { st1 with clock := st1.clock + 500 }
        postToChatSay st2 env channelName message target cs

/-- Embedding of `TwitchAPI.postToChat`.  With no chat client the call fails
fast; while disconnected it first attempts `chatClient.connect()` and only
fails (with `Could not connect to Twitch chat`) if that attempt throws; once
connected it ensures the channel is joined and sends the message. -/
def postToChat (st : TwitchState) (env : TwitchEnv) (channelName message : String) :
    Out TwitchState ChatPostResult :=
  if st.chatClientInit = false then
    ⟨.ok { success := false,
           error := "Chat client not initialized - bot credentials not provided" }, st, []⟩
  else if st.isConnected then
    postToChatConnected st env channelName message
  else
    match env.chatConnect with
    | .error _ =>
        ⟨.ok { success := false, error := "Could not connect to Twitch chat" },
          st, [.chatConnectReq]⟩
    | .ok _ =>
        let st1 := { st with isConnected := true, clock := st.clock + 1000 }
        match postToChatConnected st1 env channelName message with
        | ⟨v, st2, cs⟩ => ⟨v, st2, .chatConnectReq :: cs⟩

/-- Mutable fields of the `YouTubeAPI` instance that the embedded operations
read or write, plus the configuration read from the environment at
construction (`channelId`, `liveStreamId`, and whether the API client and
the OAuth client were initialised). -/
structure YTState where
  cache : List (String × CacheVal)
  clock : Nat
  lastRequestTime : Nat
  quotaUsed : Nat
  apiInit : Bool
  oauthInit : Bool
  channelId : Option String
  liveStreamId : Option String
deriving DecidableEq

/-- Oracle for the YouTube-side external calls: `search` returns the video
ids of the channel's current live streams, `videos` the
`liveStreamingDetails.activeLiveChatId` of each item returned for a video
id (`none` when the detail is absent), and `insertMessage` the id of the
inserted chat message. -/
structure YTEnv where
  search : Except JsError (List String)
  videos : String → Except JsError (List (Option String))
  insertMessage : String → String → Except JsError String

/-- Embedding of `YouTubeAPI.rateLimit` (100 ms minimum interval). -/
def ytRateLimit (st : YTState) : YTState :=
  let g := rateLimitGrant st.clock st.lastRequestTime 100
  { st with clock := g, lastRequestTime := g }

/-- JavaScript truthiness of an optional string: `null`, `undefined` and the
empty string are falsy. -/
def strTruthy (o : Option String) : Bool :=
  match o with
  | some s => s ≠ ""
  | none => false

/-- JavaScript `a || b` over an optional string and a fallback. -/
def strOr (a : Option String) (b : String) : String :=
  match a with
  | some s => if s = "" then b else s
  | none => b

/-- Embedding of `YouTubeAPI.getCurrentLiveStreams`: a rate-limited search
for live videos of the configured channel; every throw (including the
missing-configuration one) is caught and an empty list returned.  A
successful search costs 100 quota units. -/
def getCurrentLiveStreams (st : YTState) (env : YTEnv) :
    Out YTState (List String) :=
  if st.apiInit = false ∨ strTruthy st.channelId = false then
    ⟨.ok [], st, []⟩
  else
    let st1 := ytRateLimit st
    match env.search with
    | .error _ => ⟨.ok [], st1, [.ytSearchReq]⟩
    | .ok items => ⟨.ok items, { st1 with quotaUsed := st1.quotaUsed + 100 }, [.ytSearchReq]⟩

/-- Cache key used by `getLiveChatId`: the requested video id, else the
configured live stream id, else `default`. -/
def liveChatKey (st : YTState) (videoId : Option String) : String :=
  "live_chat_id_" ++ strOr videoId (strOr st.liveStreamId "default")

/-- Cache-miss path of `getLiveChatId`: fails if the API client is missing;
otherwise, after the rate-limit wait, resolves the video id through the
current live streams when none was supplied and a channel id is configured,
then queries the video's live-streaming details.  Every failure is a thrown
error: the catch clause only logs and rethrows. -/
def getLiveChatIdFetch (st : YTState) (env : YTEnv) (videoId : Option String)
    (key : String) : Out YTState String :=
  if st.apiInit = false then
    ⟨.error ⟨"YouTube API not initialized", none⟩, st, []⟩
  else
    let st1 := ytRateLimit st
    match (if strTruthy videoId = false ∧ strTruthy st.channelId then
            getCurrentLiveStreams st1 env
          else ⟨.ok [], st1, []⟩ : Out YTState (List String)) with
    | ⟨.error e, st2, cs⟩ => ⟨.error e, st2, cs⟩
    | ⟨.ok streams, st2, cs⟩ =>
        let vid := match streams with
          | v :: _ => some v
          | [] => videoId
        if strTruthy vid = false then
          ⟨.error ⟨"No live stream video ID available", none⟩, st2, cs⟩
        else
          match vid with
          | none => ⟨.error ⟨"No live stream video ID available", none⟩, st2, cs⟩
          | some v =>
              match env.videos v with
              | .error e => ⟨.error e, st2, cs ++ [.ytVideosReq v]⟩
              | .ok [] =>
                  ⟨.error ⟨"Video not found or not a live stream", none⟩,
                    { st2 with quotaUsed := st2.quotaUsed + 1 }, cs ++ [.ytVideosReq v]⟩
              | .ok (item :: _) =>
                  let st3 := { st2 with quotaUsed := st2.quotaUsed + 1 }
                  match item with
                  | none =>
                      ⟨.error ⟨"Live chat not available for this stream", none⟩,
                        st3, cs ++ [.ytVideosReq v]⟩
                  | some id =>
                      if id = "" then
                        ⟨.error ⟨"Live chat not available for this stream", none⟩,
                          st3, cs ++ [.ytVideosReq v]⟩
                      else
                        ⟨.ok id,
                          { st3 with cache := cacheSet st3.cache key (.str id) },
                          cs ++ [.ytVideosReq v]⟩

/-- Embedding of `YouTubeAPI.getLiveChatId`: cached (truthiness-checked)
live-chat id, fetched on a miss.  Errors propagate to the caller. -/
def getLiveChatId (st : YTState) (env : YTEnv) (videoId : Option String) :
    Out YTState String :=
  let key := liveChatKey st videoId
  match cacheGetStr st.cache key with
  | some id =>
      if id = "" then getLiveChatIdFetch st env videoId key
      else ⟨.ok id, st, []⟩
  | none => getLiveChatIdFetch st env videoId key

/-- Result object of `postToLiveChat`. -/
structure YTPostResult where
  success : Bool
  error : String := ""
  message : String := ""
  messageId : String := ""
  liveChatId : String := ""
  text : String := ""
deriving DecidableEq

/-- Catch clause of `postToLiveChat`: googleapis error codes 403 and 404 map
to fixed messages, anything else reports the error's own message or the
generic fallback. -/
def postLiveChatCatchMsg (e : JsError) : String :=
  if e.status = some 403 then
    "Insufficient permissions to post to live chat. Check OAuth scopes."
  else if e.status = some 404 then
    "Live chat not found or stream is not live"
  else if e.msg = "" then "Failed to post to YouTube live chat" else e.msg

/-- Embedding of `YouTubeAPI.postToLiveChat`: fails fast without OAuth;
resolves the live chat id (whose thrown errors the surrounding catch
normalises into failure results), then performs the rate-limited insert.  A
successful insert costs 50 quota units.  The function never propagates an
error. -/
def postToLiveChat (st : YTState) (env : YTEnv) (message : String)
    (videoId : Option String) : Out YTState YTPostResult :=
  if st.oauthInit = false then
    ⟨.ok { success := false,
           error := "YouTube OAuth not configured - cannot post to live chat" }, st, []⟩
  else
    match getLiveChatId st env videoId with
    | ⟨.error e, st1, cs⟩ =>
        ⟨.ok { success := false, error := postLiveChatCatchMsg e }, st1, cs⟩
    | ⟨.ok liveChatId, st1, cs⟩ =>
        if liveChatId = "" then
          ⟨.ok { success := false, error := "Could not find active live chat" }, st1, cs⟩
        else
          let st2 := ytRateLimit st1
          match env.insertMessage liveChatId message with
          | .error e =>
              ⟨.ok { success := false, error := postLiveChatCatchMsg e },
                st2, cs ++ [.ytInsertReq liveChatId message]⟩
          | .ok msgId =>
              ⟨.ok { success := true,
                     message := "Posted to YouTube live chat successfully",
                     messageId := msgId, liveChatId := liveChatId, text := message },
                { st2 with quotaUsed := st2.quotaUsed + 50 },
                cs ++ [.ytInsertReq liveChatId message]⟩

/-- Server-side configuration read from the environment:
`CLIP_MESSAGE_TEMPLATE` and whether `YOUTUBE_API_KEY` is set. -/
structure ServerConfig where
  clipMessageTemplate : Option String
  youtubeApiKey : Bool
deriving DecidableEq

/-- The `platforms` object of a create-clip payload; each flag may be
absent. -/
structure PlatformsOpt where
  twitch : Option Bool
  youtube : Option Bool
deriving DecidableEq

/-- Payload of a `create-clip` WebSocket message. -/
structure ClipPayload where
  channelName : String
  duration : Int
  title : Option String
  platforms : Option PlatformsOpt
deriving DecidableEq

/-- Per-platform post outcomes recorded in the response's `platforms`
object; a platform that was not posted to is absent. -/
structure PlatformResults where
  twitch : Option ChatPostResult := none
  youtube : Option YTPostResult := none
deriving DecidableEq

/-- The `data` object of a successful `clip-created` response. -/
structure ClipData where
  clipId : String
  clipUrl : String
  platforms : PlatformResults
deriving DecidableEq

/-- Message sent over the observer WebSocket by `handleClipCreation`:
intermediate `status` updates (the posting one carries the clip URL) and the
terminal `clip-created` message. -/
inductive WsMsg
  | statusMsg (stage message : String) (clipUrl : Option String)
  | clipCreated (success : Bool) (data : Option ClipData) (error : Option String)
deriving DecidableEq

/-- Test for the terminal `clip-created` message type. -/
def isClipCreated (m : WsMsg) : Bool :=
  match m with
  | .clipCreated _ _ _ => true
  | .statusMsg _ _ _ => false

/-- Default chat message used when no template is configured. -/
def defaultClipMessage (clipUrl : String) : String :=
  "🎬 Check out this clip! " ++ clipUrl

/-- Rendering of the chat message:
`CLIP_MESSAGE_TEMPLATE?.replace(...) || default`.  The JavaScript `replace`
with a string pattern only replaces the first occurrence; the template is
expected to contain the placeholder once, as replacing every occurrence does
here. -/
def renderMessage (cfg : ServerConfig) (clipUrl : String) : String :=
  match cfg.clipMessageTemplate with
  | some t =>
      let r := t.replace "{url}" clipUrl
      if r = "" then defaultClipMessage clipUrl else r
  | none => defaultClipMessage clipUrl

/-- Condition for posting to Twitch chat: `!platforms || platforms.twitch
!== false`. -/
def twitchEnabled (p : Option PlatformsOpt) : Bool :=
  match p with
  | none => true
  | some ps => ps.twitch ≠ some false

/-- Condition for posting to YouTube chat: `(!platforms || platforms.youtube
!== false) && process.env.YOUTUBE_API_KEY`. -/
def youtubeEnabled (p : Option PlatformsOpt) (cfg : ServerConfig) : Bool :=
  (match p with
   | none => true
   | some ps => ps.youtube ≠ some false) && cfg.youtubeApiKey

/-- Messages sent so far plus the states and call trace accumulated by
`handleClipCreation`; what the catch clause sees when a throw interrupts the
try block. -/
structure HCCAcc where
  msgs : List WsMsg
  tst : TwitchState
  yst : YTState
  calls : List ExtCall

/-- YouTube leg of `handleClipCreation`'s posting stage, followed by the
terminal success message carrying both platform outcomes. -/
def hccYtStep (yst : YTState) (yenv : YTEnv) (cfg : ServerConfig)
    (p : ClipPayload) (r : ClipResult) (text : String) (msgs : List WsMsg)
    (tst : TwitchState) (cs : List ExtCall) (twRes : Option ChatPostResult) :
    Except (String × HCCAcc) HCCAcc :=
  match (if youtubeEnabled p.platforms cfg then some (postToLiveChat yst yenv text none)
         else none) with
  | some ⟨.error e, y2, c⟩ => .error (e.msg, ⟨msgs, tst, y2, cs ++ c⟩)
  | some ⟨.ok yr, y2, c⟩ =>
      .ok ⟨msgs ++ [.clipCreated true
            (some ⟨r.clipId, r.clipUrl, ⟨twRes, some yr⟩⟩) none],
        tst, y2, cs ++ c⟩
  | none =>
      .ok ⟨msgs ++ [.clipCreated true
            (some ⟨r.clipId, r.clipUrl, ⟨twRes, none⟩⟩) none],
        tst, yst, cs⟩

/-- Try block of `server.js`'s `handleClipCreation`: status update, clip
creation (a failure result is turned into a throw), posting status update,
then the independent platform posts and the terminal success message.  A
`.error` outcome carries the thrown message together with everything already
sent and performed. -/
def handleClipTry (tst : TwitchState) (yst : YTState) (tenv : TwitchEnv)
    (yenv : YTEnv) (cfg : ServerConfig) (p : ClipPayload) :
    Except (String × HCCAcc) HCCAcc :=
  let m0 := WsMsg.statusMsg "creating" "Creating clip..." none
  match createClip tst tenv p.channelName p.duration p.title with
  | ⟨.error e, tst1, cs⟩ => .error (e.msg, ⟨[m0], tst1, yst, cs⟩)
  | ⟨.ok r, tst1, cs⟩ =>
      if r.success = false then .error (r.error, ⟨[m0], tst1, yst, cs⟩)
      else
        let m1 := WsMsg.statusMsg "posting" "Clip created! Posting to chats..."
          (some r.clipUrl)
        let text := renderMessage cfg r.clipUrl
        match (if twitchEnabled p.platforms then
                some (postToChat tst1 tenv p.channelName text)
              else none) with
        | some ⟨.error e, tst2, c⟩ => .error (e.msg, ⟨[m0, m1], tst2, yst, cs ++ c⟩)
        | some ⟨.ok tr, tst2, c⟩ =>
            hccYtStep yst yenv cfg p r text [m0, m1] tst2 (cs ++ c) (some tr)
        | none => hccYtStep yst yenv cfg p r text [m0, m1] tst1 cs none

/-- Embedding of `server.js`'s `handleClipCreation` for one `create-clip`
WebSocket message: runs the try block and, when it throws, appends the
failing `clip-created` message in the catch clause. -/
def handleClipCreation (tst : TwitchState) (yst : YTState) (tenv : TwitchEnv)
    (yenv : YTEnv) (cfg : ServerConfig) (p : ClipPayload) : HCCAcc :=
  match handleClipTry tst yst tenv yenv cfg p with
  | .ok acc => acc
  | .error (msg, acc) =>
      { acc with msgs := acc.msgs ++ [.clipCreated false none (some msg)] }

/-- Progress of one logical task through the body of `rateLimit()`:
not yet entered, parked in `sleep(delay)` until its wake time, or returned
with its reservation granted at the recorded time. -/
inductive RLPhase
  | start
  | sleeping (wake : Nat)
  | done (grant : Nat)
deriving DecidableEq

/-- Shared rate-limiter state plus two concurrently running callers of
`rateLimit()`: the wall clock, the shared `lastRequestTime`, and each
caller's progress. -/
structure RLSys where
  clock : Nat
  last : Nat
  taskA : RLPhase
  taskB : RLPhase
deriving DecidableEq

/-- Scheduler event: resume one caller (it runs until it returns or reaches
its `await sleep`), or let time pass. -/
inductive RLEvent
  | runA
  | runB
  | tick (n : Nat)
deriving DecidableEq

/-- Atomic blocks of `rateLimit()` as one caller executes them.  From the
start, the caller reads the clock and the shared timestamp: if the minimum
interval has elapsed it writes the timestamp and is granted immediately,
otherwise it computes its wake time `last + m` and parks in the sleep.  A
sleeping caller whose wake time has arrived re-reads the clock, writes the
timestamp and is granted; no re-check of the interval happens after the
sleep, exactly as in the source. -/
def rlBlock (clock last m : Nat) (ph : RLPhase) : RLPhase × Nat :=
  match ph with
  | .start =>
      if m ≤ clock - last then (.done clock, clock)
      else (.sleeping (last + m), last)
  | .sleeping wake =>
      if wake ≤ clock then (.done clock, clock) else (.sleeping wake, last)
  | .done g => (.done g, last)

/-- One scheduler step over the two-caller system. -/
def rlStep (m : Nat) (s : RLSys) (e : RLEvent) : RLSys :=
  match e with
  | .tick n => { s with clock := s.clock + n }
  | .runA =>
      match rlBlock s.clock s.last m s.taskA with
      | (ph, l) => { s with taskA := ph, last := l }
  | .runB =>
      match rlBlock s.clock s.last m s.taskB with
      | (ph, l) => { s with taskB := ph, last := l }

/-- Run a schedule of events over the two-caller system. -/
def rlRun (m : Nat) (s : RLSys) (es : List RLEvent) : RLSys :=
  es.foldl (rlStep m) s

/-- Concrete `TwitchAPI` instance state: empty cache, initialised and
connected chat client, no joined channels. -/
def st0 : TwitchState :=
  ⟨[], 0, 0, true, true, []⟩

/-- Concrete instance state whose chat client is initialised but currently
disconnected. -/
def stDisc : TwitchState :=
  ⟨[], 0, 0, true, false, []⟩

/-- Environment in which every Twitch call succeeds: the channel resolves to
user id `123`, is live, and clip creation returns id `abc123`. -/
def envOkT : TwitchEnv :=
  ⟨fun _ => .ok ["123"], fun _ => .ok 1,
    fun _ => .ok [("abc123", "https://clips.twitch.tv/abc123/edit")],
    fun _ => .ok 1, .ok (), fun _ => .ok (), fun _ _ => .ok ()⟩

/-- Environment in which the users endpoint fails with a network error and
everything else succeeds. -/
def envUsersErr : TwitchEnv :=
  ⟨fun _ => .error ⟨"Network Error", none⟩, fun _ => .ok 1,
    fun _ => .ok [("abc123", "https://clips.twitch.tv/abc123/edit")],
    fun _ => .ok 1, .ok (), fun _ => .ok (), fun _ _ => .ok ()⟩

/-- Environment in which the channel resolves but has no live stream. -/
def envOffline : TwitchEnv :=
  ⟨fun _ => .ok ["123"], fun _ => .ok 0,
    fun _ => .ok [("abc123", "https://clips.twitch.tv/abc123/edit")],
    fun _ => .ok 1, .ok (), fun _ => .ok (), fun _ _ => .ok ()⟩

/-- Environment in which connecting to chat fails and every other call
succeeds. -/
def envNoConnect : TwitchEnv :=
  ⟨fun _ => .ok ["123"], fun _ => .ok 1,
    fun _ => .ok [("abc123", "https://clips.twitch.tv/abc123/edit")],
    fun _ => .ok 1, .error ⟨"Connection closed", none⟩,
    fun _ => .ok (), fun _ _ => .ok ()⟩

/-- Concrete `YouTubeAPI` instance state: API and OAuth initialised, a
configured live stream id but no channel id. -/
def yst0 : YTState :=
  ⟨[], 0, 0, 0, true, true, none, some "vid1"⟩

/-- Concrete instance state whose chat client was never initialised. -/
def stNoInit : TwitchState :=
  ⟨[], 0, 0, false, false, []⟩

/-- Environment in which every YouTube call succeeds. -/
def yenvOk : YTEnv :=
  ⟨.ok ["vid1"], fun _ => .ok [some "chat1"], fun _ _ => .ok "m1"⟩

example : jsToLower "Alice" = "alice" := by decide

/-- The call trace of `getUserIdFetch` is exactly the users request for the
lowercased login. -/
theorem getUserIdFetch_calls (st : TwitchState) (env : TwitchEnv) (u : String) :
    (getUserIdFetch st env u).calls = [.usersReq (jsToLower u)] := by
  unfold getUserIdFetch
  dsimp only
  rcases henv : env.usersLookup (jsToLower u) with e | ids
  · dsimp only
    split <;> rfl
  · rcases ids with _ | ⟨i, rest⟩ <;> rfl

/-- The call trace of `getUserId` is empty (cache hit) or the single users
request for the lowercased login. -/
theorem getUserId_calls (st : TwitchState) (env : TwitchEnv) (u : String) :
    (getUserId st env u).calls = [] ∨
      (getUserId st env u).calls = [.usersReq (jsToLower u)] := by
  unfold getUserId
  rcases hc : cacheGetStr st.cache (userIdKey u) with _ | uid
  · exact Or.inr (getUserIdFetch_calls st env u)
  · dsimp only
    split
    · exact Or.inr (getUserIdFetch_calls st env u)
    · exact Or.inl rfl

/-- Every call in the trace of `isChannelLive` is a users request or a
streams request; in particular no clip-creation request occurs. -/
theorem isChannelLive_calls (st : TwitchState) (env : TwitchEnv) (u : String)
    (c : ExtCall) (h : c ∈ (isChannelLive st env u).calls) :
    (∃ l, c = .usersReq l) ∨ ∃ i, c = .streamsReq i := by
  unfold isChannelLive at h
  rcases hcb : cacheGetBool st.cache (liveKey u) with _ | b
  · rw [hcb] at h
    rcases hg : getUserId st env u with ⟨v, st1, cs⟩
    have hcs : cs = [] ∨ cs = [.usersReq (jsToLower u)] := by
      have hx := getUserId_calls st env u
      rw [hg] at hx
      exact hx
    rw [hg] at h
    rcases v with e | uid
    · dsimp at h
      rcases hcs with hcs | hcs
      · subst hcs
        simp at h
      · subst hcs
        simp at h
        exact Or.inl ⟨_, h⟩
    · dsimp at h
      rcases hs : env.streamsLookup uid with e2 | n
      · rw [hs] at h
        dsimp at h
        simp at h
        rcases h with h | h
        · rcases hcs with hcs | hcs
          · subst hcs
            simp at h
          · subst hcs
            simp at h
            exact Or.inl ⟨_, h⟩
        · exact Or.inr ⟨_, h⟩
      · rw [hs] at h
        dsimp at h
        simp at h
        rcases h with h | h
        · rcases hcs with hcs | hcs
          · subst hcs
            simp at h
          · subst hcs
            simp at h
            exact Or.inl ⟨_, h⟩
        · exact Or.inr ⟨_, h⟩
  · rw [hcb] at h
    simp at h

/-- C1 — a duration below 5 or above 60 makes `createClip` return a failure
result without performing any external call; with a well-formed channel
name the failure carries the duration validation message. -/
theorem createClip_badDuration_fails_without_calls (st : TwitchState)
    (env : TwitchEnv) (name : String) (d : Int) (t : Option String)
    (hd : d < 5 ∨ 60 < d) :
    ∃ msg, createClip st env name d t =
        ⟨.ok { success := false, error := msg }, st, []⟩ ∧
      (name ≠ "" → msg = "Clip duration must be between 5 and 60 seconds") := by
  by_cases hn : name = ""
  · refine ⟨"Invalid channel name provided", ?_, fun h => absurd hn h⟩
    simp [createClip, hn, clipFail]
  · refine ⟨"Clip duration must be between 5 and 60 seconds", ?_, fun _ => rfl⟩
    simp [createClip, hn, hd, clipFail]

/-- Witness for C1 at duration 4. -/
theorem createClip_badDuration_fails_without_calls_witness :
    ((4 : Int) < 5 ∨ 60 < (4 : Int)) ∧
      ∃ msg, createClip st0 envOkT "alice" 4 none =
          ⟨.ok { success := false, error := msg }, st0, []⟩ ∧
        ("alice" ≠ "" → msg = "Clip duration must be between 5 and 60 seconds") :=
  ⟨Or.inl (by decide),
    createClip_badDuration_fails_without_calls st0 envOkT "alice" 4 none
      (Or.inl (by decide))⟩

/-- C7 counterexample — with a minimum interval of 100 ms, two concurrent
callers that both enter `rateLimit()` before either finishes both compute
the same wake time, sleep, and are granted at the same instant: the two
grants are 0 ms apart, not 100.  The schedule runs caller A and caller B up
to their sleeps, advances time 100 ms, then resumes both. -/
theorem rateLimit_concurrent_grants_violate_interval :
    (rlRun 100 ⟨0, 0, .start, .start⟩
        [.runA, .runB, .tick 100, .runA, .runB]).taskA = .done 100 ∧
      (rlRun 100 ⟨0, 0, .start, .start⟩
        [.runA, .runB, .tick 100, .runA, .runB]).taskB = .done 100 ∧
      ¬(100 + 100 ≤ 100 ∨ 100 + 100 ≤ 100) := by
  decide

/-- C7 amended — grants of non-overlapping `rateLimit()` calls do respect
the interval: a second call that starts no earlier than the first call's
grant is granted at least `m` milliseconds after it. -/
theorem rateLimitGrant_sequential (m last c1 c2 : Nat)
    (h : rateLimitGrant c1 last m ≤ c2) :
    rateLimitGrant c1 last m + m ≤ rateLimitGrant c2 (rateLimitGrant c1 last m) m := by
  have key : ∀ g c : Nat, g ≤ c → g + m ≤ rateLimitGrant c g m := by
    intro g c hg
    unfold rateLimitGrant
    split <;> omega
  exact key _ _ h

/-- Witness for the amended C7 with the source's 100 ms interval: a first
call granted at time 250 and a second call entering at time 300. -/
theorem rateLimitGrant_sequential_witness :
    rateLimitGrant 250 200 100 ≤ 300 ∧
      rateLimitGrant 250 200 100 + 100 ≤
        rateLimitGrant 300 (rateLimitGrant 250 200 100) 100 :=
  ⟨by decide, rateLimitGrant_sequential 100 200 250 300 (by decide)⟩

/-- C2 — when the liveness check comes back false (and validation passes so
the check is reached), `createClip` returns the not-live failure and the
clip-creation endpoint is never called. -/
theorem createClip_notLive (st : TwitchState) (env : TwitchEnv) (name : String)
    (d : Int) (t : Option String) (hn : name ≠ "") (hd : ¬(d < 5 ∨ 60 < d))
    (hl : (isChannelLive st env name).val = .ok false) :
    (createClip st env name d t).val =
        .ok { success := false,
              error := "Channel " ++ name ++ " is not currently live" } ∧
      ∀ uid, ExtCall.clipsPost uid ∉ (createClip st env name d t).calls := by
  unfold createClip
  rw [if_neg hn, if_neg hd]
  rcases hI : isChannelLive st env name with ⟨v, st1, cs⟩
  rw [hI] at hl
  dsimp at hl
  subst hl
  constructor
  · rfl
  · intro uid hmem
    dsimp at hmem
    have hc := isChannelLive_calls st env name (.clipsPost uid)
      (by rw [hI]; exact hmem)
    rcases hc with ⟨l, hcc⟩ | ⟨i, hcc⟩ <;> simp at hcc

/-- Witness for C2: channel `alice` resolves but is offline. -/
theorem createClip_notLive_witness :
    ("alice" ≠ "" ∧ ¬((30 : Int) < 5 ∨ 60 < (30 : Int)) ∧
        (isChannelLive st0 envOffline "alice").val = .ok false) ∧
      (createClip st0 envOffline "alice" 30 none).val =
          .ok { success := false,
                error := "Channel " ++ "alice" ++ " is not currently live" } ∧
        ∀ uid, ExtCall.clipsPost uid ∉
          (createClip st0 envOffline "alice" 30 none).calls :=
  ⟨⟨by decide, by decide, by decide⟩,
    createClip_notLive st0 envOffline "alice" 30 none (by decide) (by decide)
      (by decide)⟩

/-- C8 — every successful `createClip` result derives its public URL from
the fixed `https://clips.twitch.tv/` base with the returned clip id
appended; in particular a result whose clip id is `abc123` has a URL ending
in `/abc123`. -/
theorem createClip_url_template (st : TwitchState) (env : TwitchEnv)
    (name : String) (d : Int) (t : Option String) (r : ClipResult)
    (hr : (createClip st env name d t).val = .ok r) (hok : r.success = true) :
    r.clipUrl = "https://clips.twitch.tv/" ++ r.clipId ∧
      (r.clipId = "abc123" → strEndsWith r.clipUrl "/abc123" = true) := by
  unfold createClip createClipCatch clipFail at hr
  repeat' split at hr
  all_goals
    injection hr with hr
  all_goals
    subst hr
  all_goals
    first
    | (refine ⟨rfl, ?_⟩
       intro hid
       dsimp at hid ⊢
       subst hid
       decide)
    | (simp at hok)

/-- Witness for C8: a successful creation in `envOkT` returning id
`abc123`. -/
theorem createClip_url_template_witness :
    ((createClip st0 envOkT "alice" 30 none).val =
        .ok { success := true, clipId := "abc123",
              clipUrl := "https://clips.twitch.tv/abc123",
              editUrl := "https://clips.twitch.tv/abc123/edit",
              channelName := "alice", duration := 30 } ∧
      ({ success := true, clipId := "abc123",
         clipUrl := "https://clips.twitch.tv/abc123",
         editUrl := "https://clips.twitch.tv/abc123/edit",
         channelName := "alice", duration := 30 } : ClipResult).success = true) ∧
      "https://clips.twitch.tv/abc123" = "https://clips.twitch.tv/" ++ "abc123" ∧
        ("abc123" = "abc123" →
          strEndsWith "https://clips.twitch.tv/abc123" "/abc123" = true) :=
  ⟨⟨by decide, by decide⟩,
    createClip_url_template st0 envOkT "alice" 30 none
      { success := true, clipId := "abc123",
        clipUrl := "https://clips.twitch.tv/abc123",
        editUrl := "https://clips.twitch.tv/abc123/edit",
        channelName := "alice", duration := 30 }
      (by decide) (by decide)⟩

example :
    (getUserId ⟨[], 0, 0, true, true, []⟩
      ⟨fun _ => .ok ["123"], fun _ => .ok 1, fun _ => .ok [("abc123", "e")],
        fun _ => .ok 1, .ok (), fun _ => .ok (), fun _ _ => .ok ()⟩
      "Alice").val = .ok "123" := by decide

/-- C6 — when the live-status cache misses and either the identity
resolution or the streams lookup throws, `isChannelLive` catches the error
and returns `false` instead of propagating it. -/
theorem isChannelLive_fail_closed (st : TwitchState) (env : TwitchEnv)
    (u : String) (hmiss : cacheGetBool st.cache (liveKey u) = none)
    (herr : (∃ e, (getUserId st env u).val = .error e) ∨
      ∃ uid e, (getUserId st env u).val = .ok uid ∧
        env.streamsLookup uid = .error e) :
    (isChannelLive st env u).val = .ok false := by
  unfold isChannelLive
  rw [hmiss]
  rcases hg : getUserId st env u with ⟨v, st1, cs⟩
  rw [hg] at herr
  rcases v with e | uid
  · rfl
  · rcases herr with ⟨e, he⟩ | ⟨uid2, e, h1, h2⟩
    · simp at he
    · dsimp at h1
      injection h1 with h1
      subst h1
      dsimp only
      rw [h2]

/-- Witness for C6: the users endpoint fails, and `isChannelLive` reports
`false`. -/
theorem isChannelLive_fail_closed_witness :
    (cacheGetBool st0.cache (liveKey "alice") = none ∧
      (getUserId st0 envUsersErr "alice").val =
        .error ⟨"Failed to get user ID for alice: Network Error", none⟩) ∧
      (isChannelLive st0 envUsersErr "alice").val = .ok false :=
  ⟨⟨by decide, by decide⟩,
    isChannelLive_fail_closed st0 envUsersErr "alice" (by decide)
      (Or.inl ⟨⟨"Failed to get user ID for alice: Network Error", none⟩, by decide⟩)⟩

/-- C5 counterexample — a post command issued while the chat client is
initialised but disconnected does not fail fast: the adapter first attempts
to establish a connection (the connect request appears in the trace) and,
when the attempt succeeds, the post goes through successfully instead of
failing with a not-connected error. -/
theorem postToChat_disconnected_counterexample :
    stDisc.isConnected = false ∧
      (postToChat stDisc envOkT "alice" "hi").val =
        .ok { success := true, message := "Posted to Twitch chat successfully",
              channel := "alice", text := "hi" } ∧
      (postToChat stDisc envOkT "alice" "hi").calls.contains .chatConnectReq = true := by
  decide

/-- C5 amended — posting with no chat client fails fast with the
uninitialised error and performs no external call; posting while
disconnected first attempts a reconnect, and when that attempt throws, the
adapter returns the connection failure without joining, sending, or queueing
anything (the trace holds only the connect attempt). -/
theorem postToChat_not_connected_behaviour (st : TwitchState) (env : TwitchEnv)
    (ch msg : String) :
    (st.chatClientInit = false →
      postToChat st env ch msg =
        ⟨.ok { success := false,
               error := "Chat client not initialized - bot credentials not provided" },
          st, []⟩) ∧
    (st.chatClientInit = true → st.isConnected = false →
      ∀ e, env.chatConnect = .error e →
        postToChat st env ch msg =
          ⟨.ok { success := false, error := "Could not connect to Twitch chat" },
            st, [.chatConnectReq]⟩) := by
  constructor
  · intro h
    unfold postToChat
    rw [if_pos h]
  · intro h1 h2 e he
    unfold postToChat
    rw [h1, h2, he]
    rfl

/-- Witness for the amended C5: a disconnected client whose reconnect
attempt fails. -/
theorem postToChat_not_connected_behaviour_witness :
    (stDisc.chatClientInit = true ∧ stDisc.isConnected = false ∧
      envNoConnect.chatConnect = .error ⟨"Connection closed", none⟩) ∧
      postToChat stDisc envNoConnect "alice" "hi" =
        ⟨.ok { success := false, error := "Could not connect to Twitch chat" },
          stDisc, [.chatConnectReq]⟩ :=
  ⟨⟨by decide, by decide, by decide⟩,
    (postToChat_not_connected_behaviour stDisc envNoConnect "alice" "hi").2
      (by decide) (by decide) ⟨"Connection closed", none⟩ (by decide)⟩

/-- C4 counterexample — two adapter operations that do propagate exceptions
past their boundary: `getUserId` rethrows when the users endpoint fails, and
`getLiveChatId` throws when no live stream video id can be determined;
neither returns a `{success, ...}` result object on these inputs. -/
theorem adapter_throws_counterexample :
    (getUserId st0 envUsersErr "alice").val =
        .error ⟨"Failed to get user ID for alice: Network Error", none⟩ ∧
      (getLiveChatId yst0 yenvOk none).val =
        .error ⟨"No live stream video ID available", none⟩ := by
  decide

/-- The catch clause of `createClip` always returns a result. -/
theorem createClipCatch_ok (st : TwitchState) (cs : List ExtCall) (e : JsError) :
    ∃ r, (createClipCatch st cs e).val = .ok r := by
  unfold createClipCatch clipFail
  split
  · exact ⟨_, rfl⟩
  · split
    · exact ⟨_, rfl⟩
    · split
      · exact ⟨_, rfl⟩
      · exact ⟨_, rfl⟩

/-- `isChannelLive` never propagates an error. -/
theorem isChannelLive_ok (st : TwitchState) (env : TwitchEnv) (u : String) :
    ∃ b, (isChannelLive st env u).val = .ok b := by
  unfold isChannelLive
  rcases hcb : cacheGetBool st.cache (liveKey u) with _ | b
  · rcases hg : getUserId st env u with ⟨v, st1, cs⟩
    rcases v with e | uid
    · exact ⟨false, rfl⟩
    · dsimp only
      rcases hs : env.streamsLookup uid with e2 | n
      · exact ⟨false, rfl⟩
      · exact ⟨_, rfl⟩
  · exact ⟨b, rfl⟩

/-- `createClip` never propagates an error. -/
theorem createClip_ok (st : TwitchState) (env : TwitchEnv) (name : String)
    (d : Int) (t : Option String) :
    ∃ r, (createClip st env name d t).val = .ok r := by
  unfold createClip
  split
  · exact ⟨_, rfl⟩
  · split
    · exact ⟨_, rfl⟩
    · rcases hI : isChannelLive st env name with ⟨v, st1, cs⟩
      rcases v with e | b
      · exact createClipCatch_ok st1 cs e
      · cases b
        · exact ⟨_, rfl⟩
        · dsimp only
          rcases hg : getUserId st1 env name with ⟨v2, st2, cs2⟩
          rcases v2 with e2 | uid
          · exact createClipCatch_ok st2 (cs ++ cs2) e2
          · dsimp only
            rcases hc : env.clipsCreate uid with e3 | items
            · exact createClipCatch_ok _ _ e3
            · rcases items with _ | ⟨⟨cid, eurl⟩, rest⟩
              · exact createClipCatch_ok _ _ _
              · exact ⟨_, rfl⟩

/-- The send step of `postToChat` never propagates an error. -/
theorem postToChatSay_ok (st : TwitchState) (env : TwitchEnv)
    (ch m target : String) (pre : List ExtCall) :
    ∃ r, (postToChatSay st env ch m target pre).val = .ok r := by
  unfold postToChatSay
  rcases hs : env.chatSay target m with e | u
  · exact ⟨_, rfl⟩
  · exact ⟨_, rfl⟩

/-- The connected path of `postToChat` never propagates an error. -/
theorem postToChatConnected_ok (st : TwitchState) (env : TwitchEnv)
    (ch m : String) :
    ∃ r, (postToChatConnected st env ch m).val = .ok r := by
  unfold postToChatConnected
  dsimp only
  split
  · exact postToChatSay_ok _ env ch m _ _
  · rcases hj : joinChannel st env ch with ⟨v, st1, cs⟩
    exact postToChatSay_ok _ env ch m _ _

/-- `postToChat` never propagates an error. -/
theorem postToChat_ok (st : TwitchState) (env : TwitchEnv) (ch m : String) :
    ∃ r, (postToChat st env ch m).val = .ok r := by
  unfold postToChat
  split
  · exact ⟨_, rfl⟩
  · split
    · exact postToChatConnected_ok st env ch m
    · rcases hc : env.chatConnect with e | u
      · exact ⟨_, rfl⟩
      · dsimp only
        rcases hp : postToChatConnected
            { st with isConnected := true, clock := st.clock + 1000 } env ch m
          with ⟨v, st2, cs⟩
        have hx := postToChatConnected_ok
          { st with isConnected := true, clock := st.clock + 1000 } env ch m
        rw [hp] at hx
        obtain ⟨r, hr⟩ := hx
        exact ⟨r, hr⟩

/-- `postToLiveChat` never propagates an error. -/
theorem postToLiveChat_ok (yst : YTState) (yenv : YTEnv) (m : String)
    (vid : Option String) :
    ∃ r, (postToLiveChat yst yenv m vid).val = .ok r := by
  unfold postToLiveChat
  split
  · exact ⟨_, rfl⟩
  · rcases hg : getLiveChatId yst yenv vid with ⟨v, st1, cs⟩
    rcases v with e | id
    · exact ⟨_, rfl⟩
    · dsimp only
      split
      · exact ⟨_, rfl⟩
      · rcases hi : yenv.insertMessage id m with e | mid
        · exact ⟨_, rfl⟩
        · exact ⟨_, rfl⟩

/-- C4 amended — the adapter operations the orchestrator calls directly
(`isChannelLive`, `createClip`, `postToChat`, `postToLiveChat`) always
return a normalised result and never propagate an error, for every state and
every external outcome; the internal resolution helpers `getUserId` and
`getLiveChatId` instead return bare identifiers and rethrow failures, which
only their in-adapter callers catch. -/
theorem adapter_operations_normalised (st : TwitchState) (yst : YTState)
    (env : TwitchEnv) (yenv : YTEnv) (name : String) (d : Int)
    (t : Option String) (m : String) (vid : Option String) :
    (∃ b, (isChannelLive st env name).val = .ok b) ∧
      (∃ r, (createClip st env name d t).val = .ok r) ∧
      (∃ r, (postToChat st env name m).val = .ok r) ∧
      ∃ r, (postToLiveChat yst yenv m vid).val = .ok r :=
  ⟨isChannelLive_ok st env name, createClip_ok st env name d t,
    postToChat_ok st env name m, postToLiveChat_ok yst yenv m vid⟩

/-- Packing a valid codepoint and reading it back is the identity. -/
theorem char_toNat_ofNat_valid (n : Nat) (h : n.isValidChar) :
    (Char.ofNat n).toNat = n := by
  unfold Char.ofNat
  rw [dif_pos h]
  unfold Char.ofNatAux Char.toNat
  simp [UInt32.toNat]

/-- Lowercasing a character twice is the same as lowercasing it once. -/
theorem char_toLower_idem (c : Char) : c.toLower.toLower = c.toLower := by
  simp only [Char.toLower]
  split
  · rename_i h
    have hv : (c.toNat + 32).isValidChar := Or.inl (by omega)
    rw [char_toNat_ofNat_valid _ hv]
    rw [if_neg (by omega)]
  · rfl

/-- Lowercasing a string twice is the same as lowercasing it once. -/
theorem jsToLower_idem (s : String) : jsToLower (jsToLower s) = jsToLower s := by
  unfold jsToLower
  congr 1
  show (s.data.map Char.toLower).map Char.toLower = s.data.map Char.toLower
  rw [List.map_map]
  induction s.data with
  | nil => rfl
  | cons c l ih => simp [Function.comp, ih, char_toLower_idem c]

/-- The user-id cache key is unchanged by lowercasing the name first. -/
theorem userIdKey_lower (u : String) : userIdKey (jsToLower u) = userIdKey u := by
  unfold userIdKey
  rw [jsToLower_idem]

/-- The live-status cache key is unchanged by lowercasing the name first. -/
theorem liveKey_lower (u : String) : liveKey (jsToLower u) = liveKey u := by
  unfold liveKey
  rw [jsToLower_idem]

/-- The fetch path of `getUserId` behaves the same for a name and its
lowercased form: same state update, same external query, and the same
successful values; only the echoed name inside thrown error messages can
differ. -/
theorem getUserIdFetch_lower (st : TwitchState) (env : TwitchEnv) (u : String) :
    (getUserIdFetch st env (jsToLower u)).st = (getUserIdFetch st env u).st ∧
      (getUserIdFetch st env (jsToLower u)).calls = (getUserIdFetch st env u).calls ∧
      ∀ uid, ((getUserIdFetch st env (jsToLower u)).val = .ok uid ↔
        (getUserIdFetch st env u).val = .ok uid) := by
  unfold getUserIdFetch
  dsimp only
  rw [jsToLower_idem, userIdKey_lower]
  rcases henv : env.usersLookup (jsToLower u) with e | ids
  · dsimp only
    by_cases hp : e.status = some 401
    · rw [if_pos hp, if_pos hp]
      exact ⟨rfl, rfl, fun uid => by simp⟩
    · rw [if_neg hp, if_neg hp]
      exact ⟨rfl, rfl, fun uid => by simp⟩
  · rcases ids with _ | ⟨i, rest⟩
    · exact ⟨rfl, rfl, fun uid => by simp⟩
    · exact ⟨rfl, rfl, fun uid => Iff.rfl⟩

/-- `getUserId` behaves the same for a name and its lowercased form: same
cache entry, same state update, same external query, same successful
values. -/
theorem getUserId_lower (st : TwitchState) (env : TwitchEnv) (u : String) :
    (getUserId st env (jsToLower u)).st = (getUserId st env u).st ∧
      (getUserId st env (jsToLower u)).calls = (getUserId st env u).calls ∧
      ∀ uid, ((getUserId st env (jsToLower u)).val = .ok uid ↔
        (getUserId st env u).val = .ok uid) := by
  unfold getUserId
  rw [userIdKey_lower]
  rcases hc : cacheGetStr st.cache (userIdKey u) with _ | uid0
  · exact getUserIdFetch_lower st env u
  · dsimp only
    by_cases h0 : uid0 = ""
    · rw [if_pos h0, if_pos h0]
      exact getUserIdFetch_lower st env u
    · rw [if_neg h0, if_neg h0]
      exact ⟨rfl, rfl, fun uid => Iff.rfl⟩

/-- `isChannelLive` returns the identical outcome, state, and trace for a
name and its lowercased form. -/
theorem isChannelLive_lower (st : TwitchState) (env : TwitchEnv) (u : String) :
    isChannelLive st env (jsToLower u) = isChannelLive st env u := by
  unfold isChannelLive
  rw [liveKey_lower]
  rcases hcb : cacheGetBool st.cache (liveKey u) with _ | b
  · obtain ⟨hst, hcalls, hval⟩ := getUserId_lower st env u
    rcases hgl : getUserId st env (jsToLower u) with ⟨v1, s1, c1⟩
    rcases hgu : getUserId st env u with ⟨v2, s2, c2⟩
    rw [hgl, hgu] at hst hcalls hval
    dsimp at hst hcalls
    subst hst
    subst hcalls
    rcases v1 with e1 | uid1 <;> rcases v2 with e2 | uid2
    · rfl
    · have hx := (hval uid2).mpr rfl
      simp at hx
    · have hx := (hval uid1).mp rfl
      simp at hx
    · have hx := (hval uid1).mp rfl
      dsimp at hx
      injection hx with hx
      subst hx
      rfl
  · rfl

/-- C10 counterexample — `getUserId` does not yield the same result for a
name and its lowercased form in every case: when the lookup fails, the
thrown error message echoes the caller's original casing, so the two calls
return different values. -/
theorem getUserId_case_counterexample :
    jsToLower "Alice" = "alice" ∧
      (getUserId st0 envUsersErr "Alice").val =
        .error ⟨"Failed to get user ID for Alice: Network Error", none⟩ ∧
      (getUserId st0 envUsersErr "alice").val =
        .error ⟨"Failed to get user ID for alice: Network Error", none⟩ ∧
      (getUserId st0 envUsersErr "Alice").val ≠
        (getUserId st0 envUsersErr "alice").val := by
  decide

/-- C10 amended — `getUserId` and `isChannelLive` lowercase the name for
both the cache key and the external query, so a name and its lowercased
form use the same cache entry, perform the same external calls, leave the
same state, and yield the same successful values; `isChannelLive` is fully
identical on both, and only the name echoed inside `getUserId`'s thrown
error messages differs. -/
theorem lookup_case_insensitive (st : TwitchState) (env : TwitchEnv)
    (u : String) :
    userIdKey (jsToLower u) = userIdKey u ∧
      liveKey (jsToLower u) = liveKey u ∧
      (getUserId st env (jsToLower u)).st = (getUserId st env u).st ∧
      (getUserId st env (jsToLower u)).calls = (getUserId st env u).calls ∧
      (∀ uid, ((getUserId st env (jsToLower u)).val = .ok uid ↔
        (getUserId st env u).val = .ok uid)) ∧
      isChannelLive st env (jsToLower u) = isChannelLive st env u :=
  ⟨userIdKey_lower u, liveKey_lower u, (getUserId_lower st env u).1,
    (getUserId_lower st env u).2.1, (getUserId_lower st env u).2.2,
    isChannelLive_lower st env u⟩

/-- Environment in which everything succeeds except sending to Twitch chat. -/
def envSayErr : TwitchEnv :=
  ⟨fun _ => .ok ["123"], fun _ => .ok 1,
    fun _ => .ok [("abc123", "https://clips.twitch.tv/abc123/edit")],
    fun _ => .ok 1, .ok (), fun _ => .ok (),
    fun _ _ => .error ⟨"msg rejected", none⟩⟩

/-- YouTube instance state ready for live-chat posting: API and OAuth
initialised, channel and live stream configured. -/
def ystReady : YTState :=
  ⟨[], 0, 0, 0, true, true, some "chan1", some "vid1"⟩

/-- Server configuration with no message template and a configured YouTube
API key. -/
def cfg0 : ServerConfig :=
  ⟨none, true⟩

/-- A create-clip payload for channel `alice`, 30 seconds, no platform
restrictions. -/
def p0 : ClipPayload :=
  ⟨"alice", 30, none, none⟩

/-- The clip result produced by a successful creation for `alice` in the
environments above. -/
def rC : ClipResult :=
  { success := true, clipId := "abc123",
    clipUrl := "https://clips.twitch.tv/abc123",
    editUrl := "https://clips.twitch.tv/abc123/edit",
    channelName := "alice", duration := 30 }

/-- Characterisation of `handleClipCreation`: the clip-creation result
always exists (the adapter never throws); on failure the handler sends the
creating status followed by one failing terminal message carrying the
error; on success it sends both statuses and one successful terminal
message whose per-platform map records each enabled platform's own post
result and omits each disabled platform. -/
theorem handleClipCreation_spec (tst : TwitchState) (yst : YTState)
    (tenv : TwitchEnv) (yenv : YTEnv) (cfg : ServerConfig) (p : ClipPayload) :
    ∃ r, (createClip tst tenv p.channelName p.duration p.title).val = .ok r ∧
      ((r.success = false ∧
          (handleClipCreation tst yst tenv yenv cfg p).msgs =
            [.statusMsg "creating" "Creating clip..." none,
             .clipCreated false none (some r.error)]) ∨
        (r.success = true ∧
          ∃ twRes ytRes,
            (handleClipCreation tst yst tenv yenv cfg p).msgs =
              [.statusMsg "creating" "Creating clip..." none,
               .statusMsg "posting" "Clip created! Posting to chats..."
                 (some r.clipUrl),
               .clipCreated true (some ⟨r.clipId, r.clipUrl, ⟨twRes, ytRes⟩⟩) none] ∧
            (twitchEnabled p.platforms = true →
              ∃ tr, twRes = some tr ∧
                (postToChat (createClip tst tenv p.channelName p.duration p.title).st
                  tenv p.channelName (renderMessage cfg r.clipUrl)).val = .ok tr) ∧
            (twitchEnabled p.platforms = false → twRes = none) ∧
            (youtubeEnabled p.platforms cfg = true →
              ∃ yr, ytRes = some yr ∧
                (postToLiveChat yst yenv (renderMessage cfg r.clipUrl) none).val =
                  .ok yr) ∧
            (youtubeEnabled p.platforms cfg = false → ytRes = none))) := by
  obtain ⟨r, hr⟩ := createClip_ok tst tenv p.channelName p.duration p.title
  refine ⟨r, hr, ?_⟩
  unfold handleClipCreation handleClipTry
  rcases hcr : createClip tst tenv p.channelName p.duration p.title with ⟨v, tst1, cs⟩
  rw [hcr] at hr
  dsimp at hr
  subst hr
  dsimp only
  by_cases hs : r.success = false
  · rw [if_pos hs]
    exact Or.inl ⟨hs, rfl⟩
  · rw [if_neg hs]
    have hst : r.success = true := by
      revert hs
      cases r.success <;> simp
    refine Or.inr ⟨hst, ?_⟩
    dsimp only
    by_cases htw : twitchEnabled p.platforms = true
    · rw [if_pos htw]
      rcases hpt : postToChat tst1 tenv p.channelName (renderMessage cfg r.clipUrl)
        with ⟨v2, tst2, c2⟩
      rcases v2 with e2 | tr
      · have hx := postToChat_ok tst1 tenv p.channelName (renderMessage cfg r.clipUrl)
        rw [hpt] at hx
        obtain ⟨r2, hr2⟩ := hx
        simp at hr2
      · unfold hccYtStep
        by_cases hyt : youtubeEnabled p.platforms cfg = true
        · rw [if_pos hyt]
          rcases hpy : postToLiveChat yst yenv (renderMessage cfg r.clipUrl) none
            with ⟨v3, y2, c3⟩
          rcases v3 with e3 | yr
          · have hx := postToLiveChat_ok yst yenv (renderMessage cfg r.clipUrl) none
            rw [hpy] at hx
            obtain ⟨r3, hr3⟩ := hx
            simp at hr3
          · refine ⟨some tr, some yr, rfl, ?_, ?_, ?_, ?_⟩
            · intro _
              exact ⟨tr, rfl, rfl⟩
            · intro hf
              rw [htw] at hf
              cases hf
            · intro _
              exact ⟨yr, rfl, rfl⟩
            · intro hf
              rw [hyt] at hf
              cases hf
        · rw [if_neg hyt]
          refine ⟨some tr, none, rfl, ?_, ?_, ?_, ?_⟩
          · intro _
            exact ⟨tr, rfl, rfl⟩
          · intro hf
            rw [htw] at hf
            cases hf
          · intro hy
            exact absurd hy hyt
          · intro _
            rfl
    · rw [if_neg htw]
      unfold hccYtStep
      by_cases hyt : youtubeEnabled p.platforms cfg = true
      · rw [if_pos hyt]
        rcases hpy : postToLiveChat yst yenv (renderMessage cfg r.clipUrl) none
          with ⟨v3, y2, c3⟩
        rcases v3 with e3 | yr
        · have hx := postToLiveChat_ok yst yenv (renderMessage cfg r.clipUrl) none
          rw [hpy] at hx
          obtain ⟨r3, hr3⟩ := hx
          simp at hr3
        · refine ⟨none, some yr, rfl, ?_, ?_, ?_, ?_⟩
          · intro ht
            exact absurd ht htw
          · intro _
            rfl
          · intro _
            exact ⟨yr, rfl, rfl⟩
          · intro hf
            rw [hyt] at hf
            cases hf
      · rw [if_neg hyt]
        refine ⟨none, none, rfl, ?_, ?_, ?_, ?_⟩
        · intro ht
          exact absurd ht htw
        · intro _
          rfl
        · intro hy
          exact absurd hy hyt
        · intro _
          rfl

/-- C3 — when clip creation succeeds the request terminates with a
successful `clip-created` message even if platform posts fail: each enabled
platform's own post result (success or failure) is recorded in the
per-platform map, a failing Twitch post does not prevent the YouTube post,
and the terminal message is the failing one only when clip creation itself
failed. -/
theorem handleClipCreation_partial_failure_completes (tst : TwitchState)
    (yst : YTState) (tenv : TwitchEnv) (yenv : YTEnv) (cfg : ServerConfig)
    (p : ClipPayload) (r : ClipResult)
    (hr : (createClip tst tenv p.channelName p.duration p.title).val = .ok r) :
    (r.success = true →
      ∃ twRes ytRes,
        (handleClipCreation tst yst tenv yenv cfg p).msgs.getLast? =
          some (.clipCreated true (some ⟨r.clipId, r.clipUrl, ⟨twRes, ytRes⟩⟩) none) ∧
        (twitchEnabled p.platforms = true →
          ∃ tr, twRes = some tr ∧
            (postToChat (createClip tst tenv p.channelName p.duration p.title).st
              tenv p.channelName (renderMessage cfg r.clipUrl)).val = .ok tr) ∧
        (twitchEnabled p.platforms = false → twRes = none) ∧
        (youtubeEnabled p.platforms cfg = true →
          ∃ yr, ytRes = some yr ∧
            (postToLiveChat yst yenv (renderMessage cfg r.clipUrl) none).val =
              .ok yr) ∧
        (youtubeEnabled p.platforms cfg = false → ytRes = none)) ∧
    (r.success = false →
      (handleClipCreation tst yst tenv yenv cfg p).msgs.getLast? =
        some (.clipCreated false none (some r.error))) := by
  obtain ⟨r2, hr2, hcases⟩ := handleClipCreation_spec tst yst tenv yenv cfg p
  rw [hr] at hr2
  injection hr2 with hr2
  subst hr2
  constructor
  · intro hst
    rcases hcases with ⟨hf, _⟩ | ⟨_, twRes, ytRes, hmsgs, h1, h2, h3, h4⟩
    · rw [hst] at hf
      cases hf
    · refine ⟨twRes, ytRes, ?_, h1, h2, h3, h4⟩
      rw [hmsgs]
      rfl
  · intro hsf
    rcases hcases with ⟨_, hmsgs⟩ | ⟨hst, _⟩
    · rw [hmsgs]
      rfl
    · rw [hsf] at hst
      cases hst

/-- Witness for C3: the Twitch post is rejected while the YouTube post
succeeds, and the request still terminates with a successful `clip-created`
message recording both outcomes. -/
theorem handleClipCreation_partial_failure_completes_witness :
    ((createClip st0 envSayErr p0.channelName p0.duration p0.title).val =
        .ok rC ∧ rC.success = true) ∧
      ∃ twRes ytRes,
        (handleClipCreation st0 ystReady envSayErr yenvOk cfg0 p0).msgs.getLast? =
          some (.clipCreated true (some ⟨rC.clipId, rC.clipUrl, ⟨twRes, ytRes⟩⟩) none) ∧
        (twitchEnabled p0.platforms = true →
          ∃ tr, twRes = some tr ∧
            (postToChat (createClip st0 envSayErr p0.channelName p0.duration p0.title).st
              envSayErr p0.channelName (renderMessage cfg0 rC.clipUrl)).val = .ok tr) ∧
        (twitchEnabled p0.platforms = false → twRes = none) ∧
        (youtubeEnabled p0.platforms cfg0 = true →
          ∃ yr, ytRes = some yr ∧
            (postToLiveChat ystReady yenvOk (renderMessage cfg0 rC.clipUrl) none).val =
              .ok yr) ∧
        (youtubeEnabled p0.platforms cfg0 = false → ytRes = none) :=
  ⟨⟨by decide, by decide⟩,
    (handleClipCreation_partial_failure_completes st0 ystReady envSayErr yenvOk
        cfg0 p0 rC (by decide)).1 (by decide)⟩

/-- C9 — every handled `create-clip` message produces exactly one terminal
`clip-created` message: a successful one carrying the result data when clip
creation succeeded, a failing one carrying the error message when it
failed. -/
theorem handleClipCreation_exactly_one_terminal (tst : TwitchState)
    (yst : YTState) (tenv : TwitchEnv) (yenv : YTEnv) (cfg : ServerConfig)
    (p : ClipPayload) :
    ((handleClipCreation tst yst tenv yenv cfg p).msgs.countP isClipCreated = 1) ∧
      ∃ r, (createClip tst tenv p.channelName p.duration p.title).val = .ok r ∧
        (r.success = true →
          ∃ d, (handleClipCreation tst yst tenv yenv cfg p).msgs.getLast? =
            some (.clipCreated true (some d) none)) ∧
        (r.success = false →
          (handleClipCreation tst yst tenv yenv cfg p).msgs.getLast? =
            some (.clipCreated false none (some r.error))) := by
  obtain ⟨r, hr, hcases⟩ := handleClipCreation_spec tst yst tenv yenv cfg p
  constructor
  · rcases hcases with ⟨_, hmsgs⟩ | ⟨_, twRes, ytRes, hmsgs, _⟩
    · rw [hmsgs]
      rfl
    · rw [hmsgs]
      rfl
  · refine ⟨r, hr, ?_, ?_⟩
    · intro hst
      rcases hcases with ⟨hf, _⟩ | ⟨_, twRes, ytRes, hmsgs, _⟩
      · rw [hst] at hf
        cases hf
      · exact ⟨_, by rw [hmsgs]; rfl⟩
    · intro hsf
      rcases hcases with ⟨_, hmsgs⟩ | ⟨hst, _⟩
      · rw [hmsgs]
        rfl
      · rw [hsf] at hst
        cases hst

/-- Witness for C9: a fully successful request emits one successful
terminal message. -/
theorem handleClipCreation_exactly_one_terminal_witness :
    ((handleClipCreation st0 ystReady envOkT yenvOk cfg0 p0).msgs.countP
        isClipCreated = 1) ∧
      ∃ d, (handleClipCreation st0 ystReady envOkT yenvOk cfg0 p0).msgs.getLast? =
        some (.clipCreated true (some d) none) := by
  obtain ⟨h1, r, hr, hsucc, hfail⟩ :=
    handleClipCreation_exactly_one_terminal st0 ystReady envOkT yenvOk cfg0 p0
  have hc : (createClip st0 envOkT p0.channelName p0.duration p0.title).val =
      .ok rC := by decide
  rw [hc] at hr
  injection hr with hr
  subst hr
  exact ⟨h1, hsucc (by decide)⟩
